import Mathlib

/-!
Verification development for grbackup (src/grbackup.py), a one-way incremental
SFTP mirror.  The definitions below are a shallow embedding of the script's
synchronization core (configuration merge, run-state load/save, download
planning, the backup-rename-restore transfer protocol, and the run summary),
translated from the source.  The local filesystem is modelled as an
association list from paths to file contents (contents are abstract strings);
wall-clock reads (time.time()) are modelled as samples of an environment clock
indexed by call order; remote-session outcomes (connect, listdir, per-file
get) are environment oracles.  Logging side effects are modelled as a trace of
structured events, one per logger call in the embedded region (the script body
from the counter initialisation through the final summary line).  The
email-report tail and the local-to-local copyfilter utility are outside every
claim and are not embedded.
-/

namespace GRBackup

/-! ## Local filesystem model

A filesystem is a finite map from paths to contents, as an association list.
`fsSet` models writing (create or overwrite), `fsRemove` models os.remove,
`fsRename` models os.rename of an existing file (POSIX: the destination is
replaced), `fsIsFile` models os.path.isfile. -/

abbrev FS := List (String × String)

def fsLookup : FS → String → Option String
  | [], _ => none
  | (p, c) :: rest, q => if p = q then some c else fsLookup rest q

def fsIsFile (fs : FS) (p : String) : Bool :=
  (fsLookup fs p).isSome

def fsSet : FS → String → String → FS
  | [], p, c => [(p, c)]
  | (q, d) :: rest, p, c => if q = p then (q, c) :: rest else (q, d) :: fsSet rest p c

def fsRemove (fs : FS) (p : String) : FS :=
  fs.filter (fun e => !(e.1 = p : Bool))

def fsRename (fs : FS) (src dst : String) : FS :=
  match fsLookup fs src with
  | some c => fsSet (fsRemove fs src) dst c
  | none => fs

/-! ## Python int() over strings

`pyInt` models CPython's `int(s)` conversion for ASCII text: surrounding
whitespace is stripped, an optional single sign is allowed, then a nonempty
digit run in which single underscores may appear between digits.  (Unicode
digits and Unicode whitespace, which CPython also accepts, are outside the
model; the state files this program itself writes are plain ASCII decimals.)
`none` models int() raising ValueError. -/

def isPythonSpace (c : Char) : Bool :=
  c == ' ' || c == '\t' || c == '\n' || c == '\r' || c == '\x0b' || c == '\x0c'

def pyDigitsRest : List Char → Nat → Option Nat
  | [], acc => some acc
  | ['_'], _ => none
  | '_' :: c :: rest, acc =>
      if c.isDigit then pyDigitsRest rest (acc * 10 + (c.toNat - 48)) else none
  | c :: rest, acc =>
      if c.isDigit then pyDigitsRest rest (acc * 10 + (c.toNat - 48)) else none

def pyUnsigned : List Char → Option Nat
  | [] => none
  | c :: rest => if c.isDigit then pyDigitsRest rest (c.toNat - 48) else none

def pyStripChars (cs : List Char) : List Char :=
  ((cs.dropWhile isPythonSpace).reverse.dropWhile isPythonSpace).reverse

def pyInt (s : String) : Option Int :=
  match pyStripChars s.toList with
  | '+' :: rest => (pyUnsigned rest).map (fun n => (n : Int))
  | '-' :: rest => (pyUnsigned rest).map (fun n => -(n : Int))
  | cs => (pyUnsigned cs).map (fun n => (n : Int))

/-! ## Configuration: class gr_param (src/grbackup.py lines 82-167)

A YAML document of the configuration file is modelled as a `Fragment`: every
recognized key is an `Option`, `none` meaning the key is absent from the
document.  `gr_param.init` is the constructor `__init__` (cwd abstracts
os.getcwd()); `gr_param.load` is the method `load`, a sequence of
update-if-key-present steps. -/

structure gr_param where
  name : String
  label : String
  last_exec_filename : String
  log_filename : String
  log_console : Bool
  log_email : Bool
  log_file : Bool
  debug : Bool
  host : String
  port : Int
  password : String
  username : String
  sourcefolder : String
  targetfolder : String
  sync : Bool
  simulation : Bool
  ssl_port : Int
  smtp_server : String
  smtp_login : String
  smtp_password : String
  source_email_address : String
  dest_email_address : String
  process_folders : Bool
deriving Repr, DecidableEq

def gr_param.init (cwd name : String) : gr_param :=
  { name := name
    label := name
    last_exec_filename := cwd ++ "/grbackup_" ++ name ++ "_last.txt"
    log_filename := cwd ++ "/grbackup_" ++ name ++ ".log"
    log_console := true
    log_email := false
    log_file := false
    debug := false
    host := "undefined_server"
    port := 22
    password := "undefined_password"
    username := "undefined_login"
    sourcefolder := ""
    targetfolder := cwd ++ "/grbackup_" ++ name ++ "/"
    sync := true
    simulation := false
    ssl_port := 465
    smtp_server := "undefined_server"
    smtp_login := "undefined_login"
    smtp_password := "undefined_password"
    source_email_address := "undefined_source_email"
    dest_email_address := "undefined_dest_email"
    process_folders := false }

structure FilesSection where
  process_subfolders : Option Bool
deriving Repr, DecidableEq

structure LogSection where
  filename : Option String
  console : Option Bool
  email : Option Bool
  file : Option Bool
  debug : Option Bool
deriving Repr, DecidableEq

structure SourceSection where
  host : Option String
  port : Option Int
  username : Option String
  password : Option String
  folder : Option String
deriving Repr, DecidableEq

structure TargetSection where
  folder : Option String
deriving Repr, DecidableEq

structure ExecmodeSection where
  sync : Option Bool
  simulation : Option Bool
deriving Repr, DecidableEq

structure EmailreportSection where
  ssl_port : Option Int
  server : Option String
  username : Option String
  password : Option String
  source_address : Option String
  dest_address : Option String
deriving Repr, DecidableEq

structure Fragment where
  name : Option String
  label : Option String
  last_exec_filename : Option String
  files : Option FilesSection
  log : Option LogSection
  source : Option SourceSection
  target : Option TargetSection
  execmode : Option ExecmodeSection
  emailreport : Option EmailreportSection
deriving Repr, DecidableEq

def gr_param.load (p : gr_param) (data : Fragment) : gr_param :=
  let p := match data.name with | some v => { p with name := v } | none => p
  let p := match data.label with | some v => { p with label := v } | none => p
  let p := match data.last_exec_filename with
    | some v => { p with last_exec_filename := v }
    | none => p
  let p := match data.files with
    | some files => { p with process_folders := files.process_subfolders.getD p.process_folders }
    | none => p
  let p := match data.log with
    | some log => { p with
        log_filename := log.filename.getD p.log_filename
        log_console := log.console.getD p.log_console
        log_email := log.email.getD p.log_email
        log_file := log.file.getD p.log_file
        debug := log.debug.getD p.debug }
    | none => p
  let p := match data.source with
    | some source => { p with
        host := source.host.getD p.host
        port := source.port.getD p.port
        username := source.username.getD p.username
        password := source.password.getD p.password
        sourcefolder := source.folder.getD p.sourcefolder }
    | none => p
  let p := match data.target with
    | some target => { p with targetfolder := target.folder.getD p.targetfolder }
    | none => p
  let p := match data.execmode with
    | some execmode => { p with
        sync := execmode.sync.getD p.sync
        simulation := execmode.simulation.getD p.simulation }
    | none => p
  let p := match data.emailreport with
    | some er => { p with
        ssl_port := er.ssl_port.getD p.ssl_port
        smtp_server := er.server.getD p.smtp_server
        smtp_login := er.username.getD p.smtp_login
        smtp_password := er.password.getD p.smtp_password
        source_email_address := er.source_address.getD p.source_email_address
        dest_email_address := er.dest_address.getD p.dest_email_address }
    | none => p
  p

/-- Fieldwise-override semantics in the spec's words: every field explicitly
present in the fragment takes the fragment's value, every unset field keeps
the base profile's value.  Used as the comparison point for the refinement
stated by the configuration-resolution claim. -/
def mergeFieldwise (p : gr_param) (data : Fragment) : gr_param :=
  { name := data.name.getD p.name
    label := data.label.getD p.label
    last_exec_filename := data.last_exec_filename.getD p.last_exec_filename
    log_filename := (data.log.bind LogSection.filename).getD p.log_filename
    log_console := (data.log.bind LogSection.console).getD p.log_console
    log_email := (data.log.bind LogSection.email).getD p.log_email
    log_file := (data.log.bind LogSection.file).getD p.log_file
    debug := (data.log.bind LogSection.debug).getD p.debug
    host := (data.source.bind SourceSection.host).getD p.host
    port := (data.source.bind SourceSection.port).getD p.port
    password := (data.source.bind SourceSection.password).getD p.password
    username := (data.source.bind SourceSection.username).getD p.username
    sourcefolder := (data.source.bind SourceSection.folder).getD p.sourcefolder
    targetfolder := (data.target.bind TargetSection.folder).getD p.targetfolder
    sync := (data.execmode.bind ExecmodeSection.sync).getD p.sync
    simulation := (data.execmode.bind ExecmodeSection.simulation).getD p.simulation
    ssl_port := (data.emailreport.bind EmailreportSection.ssl_port).getD p.ssl_port
    smtp_server := (data.emailreport.bind EmailreportSection.server).getD p.smtp_server
    smtp_login := (data.emailreport.bind EmailreportSection.username).getD p.smtp_login
    smtp_password := (data.emailreport.bind EmailreportSection.password).getD p.smtp_password
    source_email_address :=
      (data.emailreport.bind EmailreportSection.source_address).getD p.source_email_address
    dest_email_address :=
      (data.emailreport.bind EmailreportSection.dest_address).getD p.dest_email_address
    process_folders := (data.files.bind FilesSection.process_subfolders).getD p.process_folders }

/-- Configuration loading loop (src/grbackup.py lines 246-266): the first YAML
document is merged into gr_param("default") and becomes both the default
profile and the initial selection; each later document is merged into a deep
copy of the default profile and becomes the selection when its resolved name
equals the command-line selector.  An empty document stream leaves `param`
undefined in the script (modelled as `none`). -/
def loadConfiguration (cwd selected : String) : List Fragment → Option gr_param
  | [] => none
  | d :: rest =>
    let defaultparam := gr_param.load (gr_param.init cwd "default") d
    some (rest.foldl (fun param data =>
      let loadparam := gr_param.load defaultparam data
      if selected = loadparam.name then loadparam else param) defaultparam)

/-! ## Run model (src/grbackup.py lines 308-437)

The script body from the counter initialisation to the final summary line,
as a function of an environment of external outcomes.  `RemoteFile` is one
listing entry together with its sftp.stat attributes (`isReg` is
stat.S_ISREG(st_mode)).  Each logger call in the region is one `LogEvent`.
`Termination` records how the run ended: `exit...` constructors are explicit
`exit()` calls, `crash...` constructors are uncaught Python exceptions —
`crashValueError` is int() failing on an existing state file (the handler
catches only IOError), and `crashAttributeError` is the call
`logger.debuginfo(...)` in the fetch-failure handler: logging.Logger has no
method named debuginfo, so reaching that line raises AttributeError and the
os.rename restoring the backup on the next line is never executed. -/

structure RemoteFile where
  name : String
  st_size : Int
  st_mtime : Int
  isReg : Bool
deriving Repr, DecidableEq

inductive LogEvent where
  | debugGetDateLast
  | errorReadLastExec
  | infoEnd
  | infoDateLastDownload (epoch : Int)
  | infoFirstExecution
  | debugOpenConnection
  | errorCannotConnect
  | infoConnected
  | debugGetListOfFiles
  | errorCannotGetList
  | infoItemsCount (n : Nat)
  | infoFileSize (filename : String) (size : Int)
  | debugSkipFolder (filename : String)
  | infoGetFile (filename : String) (mtime : Int)
  | debugBackupPrevious (backupPath : String)
  | errorCannotBackup
  | errorDownloading
  | infoOk (size : Int)
  | debugDeleteBackup (backupPath : String)
  | infoSimulationGet (filename : String) (mtime : Int)
  | debugCloseConnection
  | errorCloseConnection
  | debugSaveDateLast
  | errorSaveDate
  | debugDateSaved (epoch : Int)
  | infoFinished (nbFiles : Nat) (totSize : Int) (duration : Int)
deriving Repr, DecidableEq

inductive Termination where
  | exitStateRead
  | crashValueError
  | exitConnect
  | exitList
  | exitBackupRename (filename : String)
  | crashAttributeError (filename : String)
  | finished
deriving Repr, DecidableEq

/-- Mutable state threaded through the per-file loop: the local filesystem,
the three run counters, and the log transcript. -/
structure LoopState where
  fs : FS
  nb_files_download : Nat
  nb_files_error : Nat
  tot_size : Int
  log : List LogEvent
deriving Repr, DecidableEq

/-- Planning decision for one entry (lines 361-378): `to_download` starts
False; only for a regular file, it becomes True if sync mode is on and no
local file exists at the target path, and (independently) becomes True if the
remote modification time is strictly greater than the last-sync watermark. -/
def toDownload (sync islocal isReg : Bool) (st_mtime lastsync_date : Int) : Bool :=
  let t := false
  if isReg then
    let t := if sync && !islocal then true else t
    let t := if st_mtime > lastsync_date then true else t
    t
  else t

/-- Run-state load (lines 314-331): no state file means a first execution and
a watermark of 0; an existing file whose read raises IOError is a logged
`exit()`; an existing file whose content int() cannot parse raises an uncaught
ValueError (the `except IOError` clause does not catch it), crashing the run;
otherwise the parsed integer (any sign) becomes the watermark. -/
def getDateOfLastSync (fileExists readFails : Bool) (content : String) :
    Except Termination Int :=
  if fileExists then
    if readFails then .error Termination.exitStateRead
    else
      match pyInt content with
      | some n => .ok n
      | none => .error Termination.crashValueError
  else .ok 0

/-- Environment of external outcomes for one run.  `fetchResult filename` is
the outcome of sftp.get for that entry: `.ok c` downloads content `c`;
`.error leftover` raises mid-transfer, leaving `leftover` (the partially
written bytes, possibly empty) at the local path, since paramiko opens the
local file for writing before transferring.  `renameToBackupFails filename`
makes the os.rename to the .back path raise for that entry.  `clock i` is the
value of the i-th time.time() call (0 = start of run, 1 = the sample written
as the new watermark, 2 = the sample in the save-confirmation debug log,
3 = the end-of-run sample). -/
structure RunEnv where
  param : gr_param
  fs0 : FS
  stateReadFails : Bool
  connectOk : Bool
  listOk : Bool
  filelist : List RemoteFile
  fetchResult : String → Except String String
  renameToBackupFails : String → Bool
  closeFails : Bool
  saveFails : Bool
  clock : Nat → Int

/-- One iteration of the per-file loop (lines 361-413).  `.error` carries a
run termination (backup-rename `exit()`, or the AttributeError crash from
`logger.debuginfo` in the fetch-failure handler) together with the state at
that moment. -/
def processEntry (env : RunEnv) (lastsync_date : Int) (st : LoopState) (f : RemoteFile) :
    Except (Termination × LoopState) LoopState :=
  let localpath := env.param.targetfolder ++ f.name
  let st :=
    if f.isReg then
      if env.param.debug then
        { st with log := st.log ++ [LogEvent.infoFileSize f.name f.st_size] }
      else st
    else { st with log := st.log ++ [LogEvent.debugSkipFolder f.name] }
  let to_download :=
    toDownload env.param.sync (fsIsFile st.fs localpath) f.isReg f.st_mtime lastsync_date
  if to_download then
    if env.param.simulation = false then
      let st := { st with log := st.log ++ [LogEvent.infoGetFile f.name f.st_mtime] }
      let localpath_backup := localpath ++ ".back"
      let backupStep : Except (Termination × LoopState) LoopState :=
        if fsIsFile st.fs localpath then
          let st := { st with log := st.log ++ [LogEvent.debugBackupPrevious localpath_backup] }
          if env.renameToBackupFails f.name then
            .error (Termination.exitBackupRename f.name,
              { st with log := st.log ++ [LogEvent.errorCannotBackup, LogEvent.infoEnd] })
          else .ok { st with fs := fsRename st.fs localpath localpath_backup }
        else .ok st
      match backupStep with
      | .error e => .error e
      | .ok st =>
        match env.fetchResult f.name with
        | .error leftover =>
          let st := { st with
            fs := fsSet st.fs localpath leftover
            nb_files_error := st.nb_files_error + 1
            log := st.log ++ [LogEvent.errorDownloading] }
          if fsIsFile st.fs localpath_backup then
            .error (Termination.crashAttributeError f.name, st)
          else .ok st
        | .ok newContent =>
          let st := { st with
            fs := fsSet st.fs localpath newContent
            nb_files_download := st.nb_files_download + 1
            tot_size := st.tot_size + f.st_size
            log := st.log ++ [LogEvent.infoOk f.st_size] }
          if fsIsFile st.fs localpath_backup then
            .ok { st with
              fs := fsRemove st.fs localpath_backup
              log := st.log ++ [LogEvent.debugDeleteBackup localpath_backup] }
          else .ok st
    else .ok { st with log := st.log ++ [LogEvent.infoSimulationGet f.name f.st_mtime] }
  else .ok st

/-- The per-file loop over the remote listing. -/
def runLoop (env : RunEnv) (lastsync_date : Int) :
    LoopState → List RemoteFile → Except (Termination × LoopState) LoopState
  | st, [] => .ok st
  | st, f :: rest =>
    match processEntry env lastsync_date st f with
    | .ok st => runLoop env lastsync_date st rest
    | .error e => .error e

/-- Result of a run: how it terminated, the final local filesystem, the three
counters, the epoch written to the state file (`none` when the save was not
reached or failed), and the seconds reported in the final summary line
(`none` when the run never reached the summary). -/
structure RunResult where
  term : Termination
  fs : FS
  nb_files_download : Nat
  nb_files_error : Nat
  tot_size : Int
  savedEpoch : Option Int
  reportedDuration : Option Int
  log : List LogEvent
deriving Repr, DecidableEq

def abortResult (t : Termination) (st : LoopState) : RunResult :=
  { term := t
    fs := st.fs
    nb_files_download := st.nb_files_download
    nb_files_error := st.nb_files_error
    tot_size := st.tot_size
    savedEpoch := none
    reportedDuration := none
    log := st.log }

/-- Pre-loop phase (lines 314-358): state load, connection, listing.  Returns
the watermark and the state entering the loop, or the abort state. -/
def preRun (env : RunEnv) : Except (Termination × LoopState) (Int × LoopState) :=
  let st : LoopState :=
    { fs := env.fs0, nb_files_download := 0, nb_files_error := 0, tot_size := 0, log := [] }
  let fileExists := fsIsFile env.fs0 env.param.last_exec_filename
  let content := (fsLookup env.fs0 env.param.last_exec_filename).getD ""
  match getDateOfLastSync fileExists env.stateReadFails content with
  | .error Termination.exitStateRead =>
    .error (Termination.exitStateRead,
      { st with log := [LogEvent.debugGetDateLast, LogEvent.errorReadLastExec, LogEvent.infoEnd] })
  | .error t => .error (t, { st with log := [LogEvent.debugGetDateLast] })
  | .ok lastsync_date =>
    let st := { st with log :=
      if fileExists then [LogEvent.debugGetDateLast, LogEvent.infoDateLastDownload lastsync_date]
      else [LogEvent.infoFirstExecution] }
    let st := { st with log := st.log ++ [LogEvent.debugOpenConnection] }
    if env.connectOk = false then
      .error (Termination.exitConnect,
        { st with log := st.log ++ [LogEvent.errorCannotConnect, LogEvent.infoEnd] })
    else
      let st := { st with log := st.log ++ [LogEvent.infoConnected, LogEvent.debugGetListOfFiles] }
      if env.listOk = false then
        .error (Termination.exitList,
          { st with log := st.log ++ [LogEvent.errorCannotGetList, LogEvent.infoEnd] })
      else
        .ok (lastsync_date,
          { st with log := st.log ++ [LogEvent.infoItemsCount env.filelist.length] })

/-- Post-loop phase (lines 415-437): close the session (failure logged only),
save the wall-clock `now` as the new watermark (IOError logged only), then
stamp the end time and report the duration and the summary line. -/
def finishRun (env : RunEnv) (start_time : Int) (st : LoopState) : RunResult :=
  let st := { st with log := st.log ++ [LogEvent.debugCloseConnection] ++
      (if env.closeFails then [LogEvent.errorCloseConnection] else []) }
  let st := { st with log := st.log ++ [LogEvent.debugSaveDateLast] }
  if env.saveFails then
    let st := { st with log := st.log ++ [LogEvent.errorSaveDate] }
    let end_time := env.clock 1
    { term := Termination.finished
      fs := st.fs
      nb_files_download := st.nb_files_download
      nb_files_error := st.nb_files_error
      tot_size := st.tot_size
      savedEpoch := none
      reportedDuration := some (end_time - start_time)
      log := st.log ++
        [LogEvent.infoFinished st.nb_files_download st.tot_size (end_time - start_time)] }
  else
    let epoch := env.clock 1
    let st := { st with
      fs := fsSet st.fs env.param.last_exec_filename (toString epoch)
      log := st.log ++ [LogEvent.debugDateSaved (env.clock 2)] }
    let end_time := env.clock 3
    { term := Termination.finished
      fs := st.fs
      nb_files_download := st.nb_files_download
      nb_files_error := st.nb_files_error
      tot_size := st.tot_size
      savedEpoch := some epoch
      reportedDuration := some (end_time - start_time)
      log := st.log ++
        [LogEvent.infoFinished st.nb_files_download st.tot_size (end_time - start_time)] }

/-- The whole embedded run. -/
def grbackupRun (env : RunEnv) : RunResult :=
  let start_time := env.clock 0
  match preRun env with
  | .error (t, st) => abortResult t st
  | .ok (lastsync_date, st) =>
    match runLoop env lastsync_date st env.filelist with
    | .error (t, st) => abortResult t st
    | .ok st => finishRun env start_time st

/-! ## Concrete runs used by the claim analyses -/

def paramT : gr_param :=
  { gr_param.init "" "p" with targetfolder := "t/", last_exec_filename := "last" }

def fileA : RemoteFile := { name := "a", st_size := 3, st_mtime := 5, isReg := true }

def fileB : RemoteFile := { name := "b", st_size := 4, st_mtime := 6, isReg := true }

def fileC : RemoteFile := { name := "c", st_size := 2, st_mtime := 8, isReg := true }

def envBase : RunEnv :=
  { param := paramT
    fs0 := []
    stateReadFails := false
    connectOk := true
    listOk := true
    filelist := []
    fetchResult := fun _ => Except.ok "new"
    renameToBackupFails := fun _ => false
    closeFails := false
    saveFails := false
    clock := fun _ => 100 }

/-- Run in which file a has a pre-existing local copy and its fetch fails
mid-transfer, leaving partial bytes. -/
def envC1 : RunEnv :=
  { envBase with
    fs0 := [("t/a", "old")]
    filelist := [fileA]
    fetchResult := fun _ => Except.error "junk" }

/-- Run listing files a and b where a has a pre-existing local copy and its
fetch fails; b would download successfully. -/
def envC3 : RunEnv :=
  { envBase with
    fs0 := [("t/a", "old")]
    filelist := [fileA, fileB]
    fetchResult := fun n => if n = "a" then Except.error "junk" else Except.ok "newb" }

/-- Run in which the rename of the pre-existing local file a to its backup
path fails. -/
def envC4 : RunEnv :=
  { envBase with
    fs0 := [("t/a", "old")]
    filelist := [fileA]
    renameToBackupFails := fun _ => true }

def stC4 : LoopState :=
  { fs := [("t/a", "old")]
    nb_files_download := 0
    nb_files_error := 0
    tot_size := 0
    log := [] }

/-- Run whose state file holds the negative integer -5. -/
def envC5 : RunEnv :=
  { envBase with fs0 := [("last", "-5")] }

/-- Run whose state file holds unparsable text. -/
def envC5W : RunEnv :=
  { envBase with fs0 := [("last", "zz")] }

/-- Simulation-mode run over a downloadable entry, with an unrelated local
file present. -/
def envC6 : RunEnv :=
  { envBase with
    param := { paramT with simulation := true }
    fs0 := [("t/x", "keep")]
    filelist := [fileA]
    clock := fun _ => 7 }

/-- Run in which the only entry's fetch fails with no pre-existing local file,
so the loop recovers and completes; the clock returns the call index. -/
def envC8 : RunEnv :=
  { envBase with
    filelist := [fileA]
    fetchResult := fun _ => Except.error "junk"
    clock := fun i => (i : Int) }

def stPre8 : LoopState :=
  match preRun envC8 with
  | .ok (_, st) => st
  | .error (_, st) => st

def stL8 : LoopState :=
  match runLoop envC8 0 stPre8 envC8.filelist with
  | .ok st => st
  | .error (_, st) => st

/-- Empty run with a clock that advances while the watermark is persisted:
start 0, watermark sample 10, confirmation-log sample 11, end sample 50. -/
def envC9 : RunEnv :=
  { envBase with
    clock := fun i => if i = 0 then 0 else if i = 1 then 10 else if i = 2 then 11 else 50 }

def stPre9 : LoopState :=
  match preRun envC9 with
  | .ok (_, st) => st
  | .error (_, st) => st

/-- Successful download of b into a folder already holding a stale t/b.back
file that this transfer never created. -/
def envC10ok : RunEnv :=
  { envBase with
    fs0 := [("t/b.back", "stale")]
    filelist := [fileB] }

/-- Failed download of c into a folder already holding a stale t/c.back file;
no local t/c exists beforehand. -/
def envC10fail : RunEnv :=
  { envBase with
    fs0 := [("t/c.back", "stale")]
    filelist := [fileC]
    fetchResult := fun _ => Except.error "junk" }

def fragEmpty : Fragment :=
  { name := none
    label := none
    last_exec_filename := none
    files := none
    log := none
    source := none
    target := none
    execmode := none
    emailreport := none }

def fragOther : Fragment :=
  { fragEmpty with name := some "other" }

def fragMine : Fragment :=
  { fragEmpty with
    name := some "mine"
    source := some { host := some "h2", port := none, username := none,
                     password := none, folder := none } }

/-! ## Helper lemmas -/

theorem fsLookup_fsSet_self (fs : FS) (p c : String) :
    fsLookup (fsSet fs p c) p = some c := by
  induction fs with
  | nil => simp [fsSet, fsLookup]
  | cons e rest ih =>
    obtain ⟨q, d⟩ := e
    by_cases h : q = p
    · subst h; simp [fsSet, fsLookup]
    · simp [fsSet, fsLookup, h, ih]

theorem fsLookup_fsSet_ne (fs : FS) (p c q : String) (h : q ≠ p) :
    fsLookup (fsSet fs p c) q = fsLookup fs q := by
  have hpq : ¬(p = q) := fun hh => h hh.symm
  induction fs with
  | nil => simp [fsSet, fsLookup, hpq]
  | cons e rest ih =>
    obtain ⟨r, d⟩ := e
    by_cases hr : r = p
    · subst hr
      simp [fsSet, fsLookup, hpq]
    · by_cases hq : r = q <;> simp [fsSet, fsLookup, hr, hq, ih, h]

set_option maxHeartbeats 1600000 in
/-- The sequential update-if-present steps of gr_param.load compute exactly
the fieldwise-override merge stated by the spec. -/
theorem gr_param.load_fieldwise (p : gr_param) (data : Fragment) :
    gr_param.load p data = mergeFieldwise p data := by
  rcases data with ⟨n, lb, le, fi, lo, so, ta, ex, er⟩
  cases n <;> cases lb <;> cases le <;> cases fi <;> cases lo <;> cases so <;>
    cases ta <;> cases ex <;> cases er <;> rfl

theorem gr_param.load_name (p : gr_param) (data : Fragment) :
    (gr_param.load p data).name = data.name.getD p.name := by
  rw [gr_param.load_fieldwise]; rfl

theorem loadConfiguration_foldl_no_match (dp : gr_param) (selected : String)
    (frags : List Fragment) (acc : gr_param)
    (h : ∀ f ∈ frags, f.name.getD dp.name ≠ selected) :
    frags.foldl (fun param data =>
      let loadparam := gr_param.load dp data
      if selected = loadparam.name then loadparam else param) acc = acc := by
  induction frags generalizing acc with
  | nil => rfl
  | cons f rest ih =>
    have hf := h f (List.mem_cons_self f rest)
    simp only [List.foldl_cons]
    rw [if_neg (by rw [gr_param.load_name]; exact fun hh => hf hh.symm)]
    exact ih acc (fun g hg => h g (List.mem_cons_of_mem f hg))

theorem loadConfiguration_foldl_match (dp : gr_param) (selected : String)
    (pre post : List Fragment) (f : Fragment) (acc : gr_param)
    (hf : f.name.getD dp.name = selected)
    (hpost : ∀ g ∈ post, g.name.getD dp.name ≠ selected) :
    (pre ++ f :: post).foldl (fun param data =>
      let loadparam := gr_param.load dp data
      if selected = loadparam.name then loadparam else param) acc =
      gr_param.load dp f := by
  rw [List.foldl_append]
  simp only [List.foldl_cons]
  rw [if_pos (by rw [gr_param.load_name, hf])]
  exact loadConfiguration_foldl_no_match dp selected post _ hpost

/-- C2: an entry is placed in the download set if and only if it is a regular
file and ((sync mode is on and the entry is absent from the local target
folder) or its modification time is strictly greater than the watermark); an
entry whose modification time equals the watermark and which is present
locally is never downloaded, and a non-regular entry is never downloaded. -/
theorem c2_download_decision :
    (∀ (sync islocal isReg : Bool) (st_mtime lastsync_date : Int),
        toDownload sync islocal isReg st_mtime lastsync_date = true ↔
          (isReg = true ∧ ((sync = true ∧ islocal = false) ∨ st_mtime > lastsync_date)))
    ∧ (∀ (sync isReg : Bool) (m : Int), toDownload sync true isReg m m = false)
    ∧ (∀ (sync islocal : Bool) (st_mtime lastsync_date : Int),
        toDownload sync islocal false st_mtime lastsync_date = false) := by
  refine ⟨?_, ?_, ?_⟩
  · intro sync islocal isReg m l
    cases sync <;> cases islocal <;> cases isReg <;> by_cases h : m > l <;>
      simp [toDownload, h]
  · intro sync isReg m
    cases sync <;> cases isReg <;> simp [toDownload, lt_irrefl]
  · intro sync islocal m l
    simp [toDownload]

/-- C7: configuration resolution starts from the default profile (the first
document merged over the built-in defaults, itself a fieldwise override);
when no later document's resolved name equals the selector the result is the
default profile; when exactly one later document's resolved name equals the
selector the result is the fieldwise-override merge of that document over the
default profile — fields present in the document take its values, all unset
fields keep the default profile's values. -/
theorem c7_config_resolution (cwd selected : String) (d : Fragment)
    (rest : List Fragment) :
    (gr_param.load (gr_param.init cwd "default") d =
      mergeFieldwise (gr_param.init cwd "default") d)
    ∧ ((∀ f ∈ rest,
          f.name.getD (gr_param.load (gr_param.init cwd "default") d).name ≠ selected) →
        loadConfiguration cwd selected (d :: rest) =
          some (gr_param.load (gr_param.init cwd "default") d))
    ∧ (∀ pre f post, rest = pre ++ f :: post →
        f.name.getD (gr_param.load (gr_param.init cwd "default") d).name = selected →
        (∀ g ∈ post,
          g.name.getD (gr_param.load (gr_param.init cwd "default") d).name ≠ selected) →
        loadConfiguration cwd selected (d :: rest) =
          some (mergeFieldwise (gr_param.load (gr_param.init cwd "default") d) f)) := by
  refine ⟨gr_param.load_fieldwise _ d, ?_, ?_⟩
  · intro h
    simp only [loadConfiguration]
    rw [loadConfiguration_foldl_no_match _ selected rest _ h]
  · intro pre f post hrest hf hpost
    subst hrest
    simp only [loadConfiguration]
    rw [loadConfiguration_foldl_match _ selected pre post f _ hf hpost,
      gr_param.load_fieldwise]

/-- Witness for C7 at a concrete configuration: three documents, the selector
matching the third; resolution yields the third document merged fieldwise
over the default profile. -/
theorem c7_witness :
    loadConfiguration "/w" "mine" [fragEmpty, fragOther, fragMine] =
      some (mergeFieldwise (gr_param.load (gr_param.init "/w" "default") fragEmpty)
        fragMine) := by
  exact (c7_config_resolution "/w" "mine" fragEmpty [fragOther, fragMine]).2.2
    [fragOther] fragMine [] rfl (by decide)
    (fun g hg => absurd hg (List.not_mem_nil g))

theorem finishRun_term (env : RunEnv) (t0 : Int) (st : LoopState) :
    (finishRun env t0 st).term = Termination.finished := by
  unfold finishRun
  split <;> split <;> rfl

theorem run_none_of_ne_finished (env : RunEnv)
    (h : (grbackupRun env).term ≠ Termination.finished) :
    (grbackupRun env).savedEpoch = none ∧ (grbackupRun env).reportedDuration = none := by
  unfold grbackupRun at h ⊢
  cases hp : preRun env with
  | error e =>
    obtain ⟨t, st⟩ := e
    simp [hp, abortResult]
  | ok v =>
    obtain ⟨ls, st⟩ := v
    simp only [hp] at h ⊢
    cases hl : runLoop env ls st env.filelist with
    | error e =>
      obtain ⟨t, st2⟩ := e
      simp [hl, abortResult]
    | ok st2 =>
      simp only [hl] at h
      exact absurd (finishRun_term env _ st2) h

theorem runLoop_append (env : RunEnv) (ls : Int) (st : LoopState)
    (l1 l2 : List RemoteFile) :
    runLoop env ls st (l1 ++ l2) =
      match runLoop env ls st l1 with
      | .ok st => runLoop env ls st l2
      | .error e => .error e := by
  induction l1 generalizing st with
  | nil => rfl
  | cons f rest ih =>
    simp only [List.cons_append, runLoop]
    cases processEntry env ls st f with
    | ok st2 => exact ih st2
    | error e => rfl

theorem processEntry_backupRenameFails (env : RunEnv) (ls : Int) (st : LoopState)
    (f : RemoteFile)
    (hreg : f.isReg = true) (hdbg : env.param.debug = false)
    (hsim : env.param.simulation = false)
    (hpresent : fsIsFile st.fs (env.param.targetfolder ++ f.name) = true)
    (hmtime : f.st_mtime > ls)
    (hfail : env.renameToBackupFails f.name = true) :
    processEntry env ls st f = .error (Termination.exitBackupRename f.name,
      { st with log := st.log ++ [LogEvent.infoGetFile f.name f.st_mtime,
          LogEvent.debugBackupPrevious (env.param.targetfolder ++ f.name ++ ".back"),
          LogEvent.errorCannotBackup, LogEvent.infoEnd] }) := by
  simp [processEntry, toDownload, hreg, hdbg, hsim, hpresent, hmtime, hfail]

/-- C4: when the rename of an existing local file to its backup path fails,
the per-file loop stops at that entry with the backup-rename exit, with a
result independent of all later entries (no further entry is processed); and
any run that terminates with the backup-rename exit writes no new watermark
and reports no summary. -/
theorem c4_backup_rename_failure_aborts (env : RunEnv) (ls : Int)
    (st st' : LoopState) (pre post : List RemoteFile) (f : RemoteFile)
    (hpre : runLoop env ls st pre = .ok st')
    (hreg : f.isReg = true) (hdbg : env.param.debug = false)
    (hsim : env.param.simulation = false)
    (hpresent : fsIsFile st'.fs (env.param.targetfolder ++ f.name) = true)
    (hmtime : f.st_mtime > ls)
    (hfail : env.renameToBackupFails f.name = true) :
    (runLoop env ls st (pre ++ f :: post) =
      .error (Termination.exitBackupRename f.name,
        { st' with log := st'.log ++ [LogEvent.infoGetFile f.name f.st_mtime,
            LogEvent.debugBackupPrevious (env.param.targetfolder ++ f.name ++ ".back"),
            LogEvent.errorCannotBackup, LogEvent.infoEnd] }))
    ∧ ∀ (env2 : RunEnv) (fname : String),
        (grbackupRun env2).term = Termination.exitBackupRename fname →
          (grbackupRun env2).savedEpoch = none ∧
          (grbackupRun env2).reportedDuration = none := by
  constructor
  · rw [runLoop_append, hpre]
    simp only [runLoop]
    rw [processEntry_backupRenameFails env ls st' f hreg hdbg hsim hpresent hmtime hfail]
  · intro env2 fname h
    exact run_none_of_ne_finished env2 (by rw [h]; exact fun hh => by cases hh)

/-- Witness for C4 at a concrete run: one listed file with a pre-existing
local copy whose backup rename fails; the loop aborts at it and no watermark
is written. -/
theorem c4_witness :
    (runLoop envC4 0 stC4 [fileA] =
      .error (Termination.exitBackupRename "a",
        { stC4 with log := stC4.log ++ [LogEvent.infoGetFile "a" 5,
            LogEvent.debugBackupPrevious "t/a.back",
            LogEvent.errorCannotBackup, LogEvent.infoEnd] }))
    ∧ (grbackupRun envC4).savedEpoch = none := by
  have h := c4_backup_rename_failure_aborts envC4 0 stC4 stC4 [] [] fileA rfl rfl rfl
    rfl (by decide) (by decide) rfl
  exact ⟨h.1, (h.2 envC4 "a" (by decide)).1⟩

theorem run_eq_finishRun (env : RunEnv) (ls : Int) (st stL : LoopState)
    (hpre : preRun env = .ok (ls, st))
    (hloop : runLoop env ls st env.filelist = .ok stL) :
    grbackupRun env = finishRun env (env.clock 0) stL := by
  unfold grbackupRun
  simp [hpre, hloop]

/-- C8: whenever the main loop completes — regardless of the per-file
outcomes accumulated in the loop state — the run finishes and attempts the
watermark save; on success the epoch written to the state file is the
wall-clock sample taken after the loop (the clock's call 1), not any function
of the listing's modification times; on write failure the run still finishes,
no epoch is recorded, and the failure is reported in the log. -/
theorem c8_watermark_save (env : RunEnv) (ls : Int) (st stL : LoopState)
    (hpre : preRun env = .ok (ls, st))
    (hloop : runLoop env ls st env.filelist = .ok stL) :
    ((grbackupRun env).term = Termination.finished)
    ∧ (env.saveFails = false →
        (grbackupRun env).savedEpoch = some (env.clock 1) ∧
        fsLookup (grbackupRun env).fs env.param.last_exec_filename =
          some (toString (env.clock 1)))
    ∧ (env.saveFails = true →
        (grbackupRun env).savedEpoch = none ∧
        LogEvent.errorSaveDate ∈ (grbackupRun env).log ∧
        (grbackupRun env).term = Termination.finished ∧
        (grbackupRun env).reportedDuration = some (env.clock 1 - env.clock 0)) := by
  rw [run_eq_finishRun env ls st stL hpre hloop]
  refine ⟨finishRun_term env _ stL, ?_, ?_⟩
  · intro hsf
    unfold finishRun
    simp [hsf, fsLookup_fsSet_self]
  · intro hsf
    unfold finishRun
    simp [hsf]

/-- Witness for C8 at a concrete run: the single entry's fetch fails (with no
pre-existing local file, so the loop recovers), and the watermark is still
written at run end with the post-loop wall-clock sample. -/
theorem c8_witness :
    (grbackupRun envC8).term = Termination.finished ∧
    (grbackupRun envC8).savedEpoch = some (envC8.clock 1) ∧
    fsLookup (grbackupRun envC8).fs envC8.param.last_exec_filename =
      some (toString (envC8.clock 1)) ∧
    (grbackupRun envC8).nb_files_error = 1 := by
  have h := c8_watermark_save envC8 0 stPre8 stL8 rfl rfl
  exact ⟨h.1, (h.2.1 rfl).1, (h.2.1 rfl).2, by decide⟩

/-- C9 (amended): the end-of-run timestamp used for the reported duration is
taken once, after the watermark save block, so the reported duration includes
the time spent persisting the watermark: on save success the duration is
clock sample 3 minus the start sample; on save failure it is sample 1 minus
the start sample. -/
theorem c9_duration_after_save (env : RunEnv) (ls : Int) (st stL : LoopState)
    (hpre : preRun env = .ok (ls, st))
    (hloop : runLoop env ls st env.filelist = .ok stL) :
    (grbackupRun env).reportedDuration =
      some ((if env.saveFails then env.clock 1 else env.clock 3) - env.clock 0) := by
  rw [run_eq_finishRun env ls st stL hpre hloop]
  unfold finishRun
  cases hsf : env.saveFails <;> simp [hsf]

/-- Counterexample to C9 as stated: in a run that starts at wall-clock 0 and
writes the watermark at wall-clock 10, the reported duration is 50 — the end
timestamp was sampled after the save, so the duration does not exclude the
time spent persisting the watermark (it would be at most 10 if the end stamp
were taken before the save). -/
theorem c9_counterexample :
    (grbackupRun envC9).savedEpoch = some 10 ∧
    (grbackupRun envC9).reportedDuration = some 50 ∧
    envC9.clock 1 - envC9.clock 0 = 10 ∧ ((50 : Int) > 10) := by decide

/-- Witness for C9 (amended) at the same concrete run. -/
theorem c9_witness :
    (grbackupRun envC9).reportedDuration =
      some ((if envC9.saveFails then envC9.clock 1 else envC9.clock 3) - envC9.clock 0) :=
  c9_duration_after_save envC9 0 stPre9 stPre9 rfl rfl

/-- C5 (amended): loading the run state returns 0 when no state file exists;
when the file exists, a read failure is a logged fatal exit, content that
int() cannot parse crashes the run (uncaught ValueError) before any remote
interaction — the filesystem is untouched, nothing is counted and no
watermark is written — and any content int() parses, including a negative
integer, is accepted as the watermark. -/
theorem c5_state_load (env : RunEnv) :
    (∀ (readFails : Bool) (content : String),
        getDateOfLastSync false readFails content = .ok 0)
    ∧ (∀ (content : String) (n : Int), pyInt content = some n →
        getDateOfLastSync true false content = .ok n)
    ∧ (∀ content : String, pyInt content = none →
        getDateOfLastSync true false content = .error Termination.crashValueError)
    ∧ (∀ content : String,
        getDateOfLastSync true true content = .error Termination.exitStateRead)
    ∧ (fsIsFile env.fs0 env.param.last_exec_filename = true →
        env.stateReadFails = false →
        pyInt ((fsLookup env.fs0 env.param.last_exec_filename).getD "") = none →
        grbackupRun env = abortResult Termination.crashValueError
          { fs := env.fs0, nb_files_download := 0, nb_files_error := 0,
            tot_size := 0, log := [LogEvent.debugGetDateLast] }) := by
  refine ⟨fun rf c => rfl, ?_, ?_, fun c => rfl, ?_⟩
  · intro c n h
    simp [getDateOfLastSync, h]
  · intro c h
    simp [getDateOfLastSync, h]
  · intro hfe hrf hparse
    unfold grbackupRun preRun
    simp [hfe, hrf, hparse, getDateOfLastSync]

/-- Witness for C5 (amended) at concrete inputs: absent file gives watermark
0; unparsable content aborts the run before any remote interaction. -/
theorem c5_witness :
    getDateOfLastSync false false "x" = Except.ok 0 ∧
    getDateOfLastSync true false "zz" = Except.error Termination.crashValueError ∧
    grbackupRun envC5W = abortResult Termination.crashValueError
      { fs := envC5W.fs0, nb_files_download := 0, nb_files_error := 0,
        tot_size := 0, log := [LogEvent.debugGetDateLast] } := by
  have h := c5_state_load envC5W
  exact ⟨h.1 false "x", h.2.2.1 "zz" (by decide),
    h.2.2.2.2 (by decide) rfl (by decide)⟩

/-- Counterexample to C5 as stated: the state-file content -5 cannot be
parsed as a non-negative integer, yet the run does not fail fatally — int()
accepts it, the watermark becomes -5 and the run proceeds to connect and
finish. -/
theorem c5_counterexample :
    pyInt "-5" = some (-5) ∧
    getDateOfLastSync true false "-5" = Except.ok (-5) ∧
    ¬(0 ≤ (-5 : Int)) ∧
    (grbackupRun envC5).term = Termination.finished ∧
    LogEvent.infoConnected ∈ (grbackupRun envC5).log :=
  ⟨by decide, rfl, by decide, by decide, by decide⟩

theorem processEntry_sim (env : RunEnv) (hsim : env.param.simulation = true)
    (ls : Int) (st : LoopState) (f : RemoteFile) :
    ∃ st2, processEntry env ls st f = .ok st2 ∧ st2.fs = st.fs ∧
      st2.nb_files_download = st.nb_files_download ∧
      st2.nb_files_error = st.nb_files_error ∧ st2.tot_size = st.tot_size := by
  unfold processEntry
  simp only [hsim, show ((true : Bool) = false) = False by simp, if_false]
  split <;> (try split) <;> (try split) <;> exact ⟨_, rfl, rfl, rfl, rfl, rfl⟩

theorem runLoop_sim (env : RunEnv) (hsim : env.param.simulation = true) (ls : Int) :
    ∀ (files : List RemoteFile) (st : LoopState),
      ∃ st2, runLoop env ls st files = .ok st2 ∧ st2.fs = st.fs ∧
        st2.nb_files_download = st.nb_files_download ∧
        st2.nb_files_error = st.nb_files_error ∧ st2.tot_size = st.tot_size := by
  intro files
  induction files with
  | nil => exact fun st => ⟨st, rfl, rfl, rfl, rfl, rfl⟩
  | cons f rest ih =>
    intro st
    obtain ⟨st1, h1, hfs1, hd1, he1, ht1⟩ := processEntry_sim env hsim ls st f
    obtain ⟨st2, h2, hfs2, hd2, he2, ht2⟩ := ih st1
    refine ⟨st2, ?_, by rw [hfs2, hfs1], by rw [hd2, hd1], by rw [he2, he1],
      by rw [ht2, ht1]⟩
    simp only [runLoop, h1, h2]

theorem preRun_state (env : RunEnv) :
    (∀ t st, preRun env = .error (t, st) →
      st.fs = env.fs0 ∧ st.nb_files_download = 0 ∧
      st.nb_files_error = 0 ∧ st.tot_size = 0)
    ∧ (∀ ls st, preRun env = .ok (ls, st) →
      st.fs = env.fs0 ∧ st.nb_files_download = 0 ∧
      st.nb_files_error = 0 ∧ st.tot_size = 0) := by
  constructor
  · intro t st h
    unfold preRun at h
    simp only [] at h
    cases hg : getDateOfLastSync (fsIsFile env.fs0 env.param.last_exec_filename)
        env.stateReadFails ((fsLookup env.fs0 env.param.last_exec_filename).getD "") with
    | error t2 =>
      rw [hg] at h
      cases t2 <;>
        first
        | (simp only [Except.error.injEq, Except.ok.injEq, Prod.mk.injEq,
             reduceCtorEq] at h
           obtain ⟨h1, h2⟩ := h
           subst h2
           exact ⟨rfl, rfl, rfl, rfl⟩)
        | simp_all
    | ok n =>
      rw [hg] at h
      repeat' split at h
      all_goals
        first
        | (simp only [Except.error.injEq, Except.ok.injEq, Prod.mk.injEq,
             reduceCtorEq] at h
           obtain ⟨h1, h2⟩ := h
           subst h2
           exact ⟨rfl, rfl, rfl, rfl⟩)
        | simp_all
  · intro ls st h
    unfold preRun at h
    simp only [] at h
    cases hg : getDateOfLastSync (fsIsFile env.fs0 env.param.last_exec_filename)
        env.stateReadFails ((fsLookup env.fs0 env.param.last_exec_filename).getD "") with
    | error t2 =>
      rw [hg] at h
      cases t2 <;>
        first
        | (simp only [Except.error.injEq, Except.ok.injEq, Prod.mk.injEq,
             reduceCtorEq] at h
           obtain ⟨h1, h2⟩ := h
           subst h2
           exact ⟨rfl, rfl, rfl, rfl⟩)
        | simp_all
    | ok n =>
      rw [hg] at h
      repeat' split at h
      all_goals
        first
        | (simp only [Except.error.injEq, Except.ok.injEq, Prod.mk.injEq,
             reduceCtorEq] at h
           obtain ⟨h1, h2⟩ := h
           subst h2
           exact ⟨rfl, rfl, rfl, rfl⟩)
        | simp_all

/-- C6 (amended): with simulationMode = true the transfer loop performs no
filesystem mutation — no rename, no fetch, no delete: every local path other
than the watermark state file is unchanged at the end of the run, and the
download, error and byte counters stay 0 — but the watermark state file is
still written at run end, so a simulation run does mutate the filesystem at
that one path. -/
theorem c6_simulation_frame (env : RunEnv) (hsim : env.param.simulation = true) :
    (∀ pth, pth ≠ env.param.last_exec_filename →
        fsLookup (grbackupRun env).fs pth = fsLookup env.fs0 pth)
    ∧ (grbackupRun env).nb_files_download = 0
    ∧ (grbackupRun env).nb_files_error = 0
    ∧ (grbackupRun env).tot_size = 0 := by
  cases hp : preRun env with
  | error e =>
    obtain ⟨t, st⟩ := e
    obtain ⟨hfs, hd, he, ht⟩ := (preRun_state env).1 t st hp
    have hrun : grbackupRun env = abortResult t st := by
      unfold grbackupRun; simp [hp]
    rw [hrun]
    exact ⟨fun pth _ => by simp [abortResult, hfs], by simp [abortResult, hd],
      by simp [abortResult, he], by simp [abortResult, ht]⟩
  | ok v =>
    obtain ⟨ls, st⟩ := v
    obtain ⟨hfs, hd, he, ht⟩ := (preRun_state env).2 ls st hp
    obtain ⟨stL, hL, hfs2, hd2, he2, ht2⟩ := runLoop_sim env hsim ls env.filelist st
    have hrun : grbackupRun env = finishRun env (env.clock 0) stL :=
      run_eq_finishRun env ls st stL hp hL
    rw [hrun]
    unfold finishRun
    cases hsf : env.saveFails with
    | true =>
      rw [if_pos rfl]
      exact ⟨fun pth _ => by simp [hfs2, hfs], by simp [hd2, hd],
        by simp [he2, he], by simp [ht2, ht]⟩
    | false =>
      rw [if_neg (by simp)]
      refine ⟨fun pth hpth => ?_, by simp [hd2, hd], by simp [he2, he],
        by simp [ht2, ht]⟩
      simp only []
      rw [fsLookup_fsSet_ne stL.fs env.param.last_exec_filename _ pth hpth,
        hfs2, hfs]

/-- Counterexample to C6 as stated: a simulation run over a downloadable
entry still mutates the filesystem — the watermark state file, absent before
the run, exists afterwards — even though the entry itself was not fetched and
the unrelated local file is untouched. -/
theorem c6_counterexample :
    envC6.param.simulation = true ∧
    fsLookup envC6.fs0 envC6.param.last_exec_filename = none ∧
    fsLookup (grbackupRun envC6).fs envC6.param.last_exec_filename = some "7" ∧
    (grbackupRun envC6).fs ≠ envC6.fs0 ∧
    fsLookup (grbackupRun envC6).fs "t/a" = none ∧
    fsLookup (grbackupRun envC6).fs "t/x" = some "keep" := by decide

/-- Witness for C6 (amended) at the same simulation run: the unrelated local
path is unchanged and nothing was downloaded. -/
theorem c6_witness :
    fsLookup (grbackupRun envC6).fs "t/x" = fsLookup envC6.fs0 "t/x" ∧
    (grbackupRun envC6).nb_files_download = 0 ∧
    (grbackupRun envC6).nb_files_error = 0 := by
  have h := c6_simulation_frame envC6 rfl
  exact ⟨h.1 "t/x" (by decide), h.2.1, h.2.2.1⟩

/-- C1: evaluation of the code at the failing input — entry a has a
pre-existing local copy (renamed to t/a.back before the fetch) and the fetch
fails leaving partial bytes at t/a.  The except handler increments the error
counter and then calls logger.debuginfo, which does not exist on
logging.Logger, so the run crashes with AttributeError before the os.rename
that would restore the backup: the destination path holds the partial bytes,
not the prior content, the prior content is stranded at the backup path, and
no watermark is written. -/
theorem c1_restore_never_runs :
    (grbackupRun envC1).term = Termination.crashAttributeError "a" ∧
    fsLookup (grbackupRun envC1).fs "t/a" = some "junk" ∧
    fsLookup (grbackupRun envC1).fs "t/a.back" = some "old" ∧
    (grbackupRun envC1).nb_files_error = 1 ∧
    (grbackupRun envC1).savedEpoch = none := by decide

/-- C3: evaluation of the code at the failing input — the fetch of entry a
(which had a pre-existing local copy) fails; the error counter is
incremented, but instead of continuing with entry b the run crashes on
logger.debuginfo, so b is never downloaded and no watermark is written. -/
theorem c3_failure_not_recovered :
    (grbackupRun envC3).term = Termination.crashAttributeError "a" ∧
    (grbackupRun envC3).nb_files_error = 1 ∧
    (grbackupRun envC3).nb_files_download = 0 ∧
    fsLookup (grbackupRun envC3).fs "t/b" = none ∧
    (grbackupRun envC3).savedEpoch = none := by decide

/-- C10: the backup path is the destination path with ".back" appended, and a
file already present there — not created by the transfer — is deleted when
the transfer succeeds (first run: stale t/b.back is removed and t/b holds the
new content).  On transfer failure, however, the claimed rename of that file
onto the destination never happens: the run crashes on logger.debuginfo
(AttributeError) as soon as it sees the backup-path file, which stays in
place while the destination holds the partial bytes (second run). -/
theorem c10_stale_backup_behavior :
    ((grbackupRun envC10ok).term = Termination.finished ∧
      fsLookup envC10ok.fs0 "t/b.back" = some "stale" ∧
      fsLookup (grbackupRun envC10ok).fs "t/b.back" = none ∧
      fsLookup (grbackupRun envC10ok).fs "t/b" = some "new")
    ∧ ((grbackupRun envC10fail).term = Termination.crashAttributeError "c" ∧
      fsLookup envC10fail.fs0 "t/c.back" = some "stale" ∧
      fsLookup (grbackupRun envC10fail).fs "t/c.back" = some "stale" ∧
      fsLookup (grbackupRun envC10fail).fs "t/c" = some "junk") := by decide

end GRBackup
